import Mathlib

/-!
# Verification of the User resource CRUD contract

Shallow embedding of the Flask demo's `create_user` / `health_check`
handlers (`src/python/flask/src/flask_demo/api/routes.py`), the `User`
dataclass (`src/python/flask/src/flask_demo/models/user.py`), the Django
`health_check` view (`src/python/django/src/api/views.py`) and, modelled
from the spec, the persistence collaborator declared by the Django `User`
model (`src/python/django/src/api/models.py`).
-/

/-- A JSON value, the type of data carried in request and response
bodies.  Objects are association lists, as produced by JSON parsing. -/
inductive Val : Type where
  | null : Val
  | str (s : String) : Val
  | int (n : Int) : Val
  | bool (b : Bool) : Val
  | arr (xs : List Val) : Val
  | obj (fields : List (String × Val)) : Val


/-- A parsed JSON object (Python `dict`), as handed to the handler by
`request.get_json()`. -/
abbrev Dict := List (String × Val)

/-- Python `d[k]` / `d.get(k)` on the object's fields: the value stored
under `k`, with `None` (here `Val.null`) when the key is absent, which is
exactly `dict.get`'s default. -/
def dictGet (d : Dict) (k : String) : Val :=
  (d.lookup k).getD Val.null

/-- The value stored under key `k` of a JSON object, or `none`. -/
def Val.get? : Val → String → Option Val
  | .obj fields, k => fields.lookup k
  | _, _ => none

/-- The keys of a JSON object, in order. -/
def Val.keys : Val → List String
  | .obj fields => fields.map Prod.fst
  | _ => []

/-- Python `str()` of a JSON value, as used by the handler's f-string
(`f"User {user.name} created!"`). -/
def pyStr : Val → String
  | .null => "None"
  | .str s => s
  | .int n => toString n
  | .bool b => if b then "True" else "False"
  | .arr _ => "[...]"
  | .obj _ => "{...}"

/-- The Flask `User` dataclass (`flask_demo/models/user.py`).  The Python
type annotations (`name: str`, `email: str`, `age: Optional[int] = None`)
are not enforced at runtime, so each field holds whatever JSON value the
handler passed in. -/
structure User : Type where
  name : Val
  email : Val
  age : Val


/-- `User.to_dict` from `flask_demo/models/user.py`: the serialized form
of a record. -/
def User.to_dict (u : User) : Val :=
  .obj [("name", u.name), ("email", u.email), ("age", u.age)]

/-- The validation-and-construction core of the `create_user` handler
(`flask_demo/api/routes.py`, lines 16–25): fail when the body is falsy or
lacks `name` or `email` (`if not data or 'name' not in data or 'email'
not in data`), otherwise build `User(name=data['name'],
email=data['email'], age=data.get('age'))`. -/
def validate_and_create (data : Dict) : Except String User :=
  if data.isEmpty ∨ (data.lookup "name").isNone ∨ (data.lookup "email").isNone then
    .error "Name and email are required"
  else
    .ok { name := dictGet data "name"
          email := dictGet data "email"
          age := dictGet data "age" }

/-- The full `create_user` handler (`flask_demo/api/routes.py`): the
validation failure becomes `({"error": ...}, 400)`, success becomes
`({"message": f"User {user.name} created!", "user": user.to_dict()},
201)`. -/
def create_user (data : Dict) : Val × Nat :=
  match validate_and_create data with
  | .error e => (.obj [("error", .str e)], 400)
  | .ok user =>
      (.obj [("message", .str ("User " ++ pyStr user.name ++ " created!")),
             ("user", user.to_dict)], 201)

/-- The Flask `health_check` handler (`flask_demo/api/routes.py`,
lines 33–36): `jsonify({"status": "healthy"}), 200`. -/
def flask_health_check : Val × Nat :=
  (.obj [("status", .str "healthy")], 200)

/-- The Django `health_check` view (`django/src/api/views.py`,
lines 14–17): `Response({"status": "healthy"}, status=HTTP_200_OK)`. -/
def django_health_check : Val × Nat :=
  (.obj [("status", .str "healthy")], 200)

/-- A record of the Django `User` model (`django/src/api/models.py`):
`name` (CharField), `email` (EmailField, unique), `age` (IntegerField,
nullable), plus the server-assigned `id`, `created_at` and `updated_at`.
Timestamps are abstract instants ordered by `Nat`. -/
structure DUser : Type where
  id : Nat
  name : String
  email : String
  age : Option Int
  created_at : Nat
  updated_at : Nat
  deriving DecidableEq, Repr

/-- The state of the Django persistence collaborator: the stored records,
most recently saved first. -/
abbrev Store := List DUser

/-- Modelled from the spec: the persistence collaborator's
`save(User) → User | UniquenessError` (the saving side of the Django ORM
is not under `src/`; only the model declaration `email =
models.EmailField(unique=True)` is).  Saving fails with a
`UniquenessError` when a stored record already has the given `email`;
otherwise a new record with a fresh `id` and `created_at = updated_at =
now` is stored. -/
def dsave (store : Store) (name email : String) (age : Option Int) (now : Nat) :
    Except String (Store × DUser) :=
  if store.any (fun u => u.email == email) then
    .error "UniquenessError"
  else
    let u : DUser := { id := store.length + 1, name := name, email := email,
                       age := age, created_at := now, updated_at := now }
    .ok (u :: store, u)

/-- Modelled from the spec: the persistence collaborator's
`get(id) → User | NotFoundError`. -/
def dget (store : Store) (id : Nat) : Option DUser :=
  store.find? (fun u => u.id == id)

/-- `a` was created no earlier than `b`: the descending-`created_at`
order the Django model declares with `class Meta: ordering =
['-created_at']`. -/
def byCreatedDesc (a b : DUser) : Prop :=
  b.created_at ≤ a.created_at

instance : DecidableRel byCreatedDesc :=
  fun a b => inferInstanceAs (Decidable (b.created_at ≤ a.created_at))

instance : IsTotal DUser byCreatedDesc :=
  ⟨fun a b => Nat.le_total b.created_at a.created_at⟩

instance : IsTrans DUser byCreatedDesc :=
  ⟨fun _ _ _ h₁ h₂ => Nat.le_trans h₂ h₁⟩

/-- Modelled from the spec: the persistence collaborator's `list() →
ordered sequence of User ordered by created_at descending` (the query
machinery that applies the model's declared ordering is not under
`src/`). -/
def dlist (store : Store) : List DUser :=
  List.insertionSort byCreatedDesc store

/-! ## Helper lemmas -/

/-- Inversion of a successful validation: the record's `name` and `email`
are exactly the input's values and its `age` is `data.get('age')`. -/
theorem vc_ok_inv (d : Dict) (u : User) (h : validate_and_create d = .ok u) :
    d.lookup "name" = some u.name ∧ d.lookup "email" = some u.email ∧
      u.age = dictGet d "age" := by
  unfold validate_and_create at h
  split at h
  · exact Except.noConfusion h
  · rename_i hcond
    push_neg at hcond
    obtain ⟨-, hn, he⟩ := hcond
    cases hn' : d.lookup "name" with
    | none => rw [hn'] at hn; simp at hn
    | some n =>
      cases he' : d.lookup "email" with
      | none => rw [he'] at he; simp at he
      | some e =>
        injection h with h
        subst h
        refine ⟨?_, ?_, rfl⟩
        · simp [dictGet, hn']
        · simp [dictGet, he']

/-- A validation that finds both required keys succeeds. -/
theorem vc_ok_of_keys (d : Dict) (n e : Val)
    (hn : d.lookup "name" = some n) (he : d.lookup "email" = some e) :
    validate_and_create d = .ok ⟨n, e, dictGet d "age"⟩ := by
  have hne : d ≠ [] := by
    intro h; rw [h] at hn; exact Option.noConfusion hn
  unfold validate_and_create
  rw [if_neg]
  · simp [dictGet, hn, he]
  · simp [hn, he, List.isEmpty_iff, hne]

/-! ## The claims -/

/-- C1: for every input mapping that lacks the key `name` or lacks the
key `email`, the handler fails with a `ValidationError` — HTTP 400 with
the explanatory message "Name and email are required" — and no `User`
record is produced (the result carries no record). -/
theorem createUser_missing_field_fails (d : Dict)
    (h : d.lookup "name" = none ∨ d.lookup "email" = none) :
    validate_and_create d = .error "Name and email are required" ∧
    create_user d = (.obj [("error", .str "Name and email are required")], 400) := by
  have hv : validate_and_create d = .error "Name and email are required" := by
    unfold validate_and_create
    rw [if_pos]
    rcases h with h | h
    · exact Or.inr (Or.inl (by simp [h]))
    · exact Or.inr (Or.inr (by simp [h]))
  exact ⟨hv, by unfold create_user; rw [hv]⟩

/-- Witness for C1 at the spec's scenario input
`{"email": "ada@example.com"}`. -/
theorem createUser_missing_field_fails_witness :
    validate_and_create [("email", Val.str "ada@example.com")]
        = .error "Name and email are required" ∧
    create_user [("email", Val.str "ada@example.com")]
        = (.obj [("error", .str "Name and email are required")], 400) :=
  createUser_missing_field_fails [("email", Val.str "ada@example.com")] (Or.inl rfl)

/-- C2: for every input mapping containing both `name` and `email`,
validation succeeds and the serialized result echoes the input's `name`
and `email`; a present `age` is copied verbatim into the record. -/
theorem createUser_success_echoes (d : Dict) (n e : Val)
    (hn : d.lookup "name" = some n) (he : d.lookup "email" = some e) :
    ∃ u, validate_and_create d = .ok u ∧
      (User.to_dict u).get? "name" = d.lookup "name" ∧
      (User.to_dict u).get? "email" = d.lookup "email" ∧
      (∀ a, d.lookup "age" = some a → u.age = a) := by
  refine ⟨⟨n, e, dictGet d "age"⟩, vc_ok_of_keys d n e hn he, ?_, ?_, ?_⟩
  · simp [User.to_dict, Val.get?, List.lookup, hn]
  · simp [User.to_dict, Val.get?, List.lookup, he]
  · intro a ha
    simp [dictGet, ha]

/-- Witness for C2 at `{"name": "Ada", "email": "ada@example.com",
"age": 36}`. -/
theorem createUser_success_echoes_witness :
    ∃ u, validate_and_create
        [("name", Val.str "Ada"), ("email", Val.str "ada@example.com"),
         ("age", Val.int 36)] = .ok u ∧
      (User.to_dict u).get? "name"
          = [("name", Val.str "Ada"), ("email", Val.str "ada@example.com"),
             ("age", Val.int 36)].lookup "name" ∧
      (User.to_dict u).get? "email"
          = [("name", Val.str "Ada"), ("email", Val.str "ada@example.com"),
             ("age", Val.int 36)].lookup "email" ∧
      (∀ a, [("name", Val.str "Ada"), ("email", Val.str "ada@example.com"),
             ("age", Val.int 36)].lookup "age" = some a → u.age = a) :=
  createUser_success_echoes _ (Val.str "Ada") (Val.str "ada@example.com") rfl rfl

/-- C3: whenever validation succeeds on an input without the key `age`,
the serialized result's `age` field is the absence marker `null`, which
is not the integer `0`. -/
theorem createUser_age_absent_null (d : Dict) (u : User)
    (hok : validate_and_create d = .ok u) (hage : d.lookup "age" = none) :
    (User.to_dict u).get? "age" = some Val.null ∧ Val.null ≠ Val.int 0 := by
  obtain ⟨-, -, ha⟩ := vc_ok_inv d u hok
  constructor
  · simp [User.to_dict, Val.get?, List.lookup, ha, dictGet, hage]
  · intro h; exact Val.noConfusion h

/-- C4 counterexample: at the scenario input `{"name": "Ada", "email":
"ada@example.com"}` the handler does return 201, but the JSON body is not
the serialized record `{"name": "Ada", "email": "ada@example.com", "age":
null}`: it wraps it in an envelope with a `message` field. -/
theorem createUser_body_not_bare_record :
    (create_user [("name", Val.str "Ada"), ("email", Val.str "ada@example.com")]).2
        = 201 ∧
    (create_user [("name", Val.str "Ada"), ("email", Val.str "ada@example.com")]).1
        ≠ Val.obj [("name", Val.str "Ada"), ("email", Val.str "ada@example.com"),
                   ("age", Val.null)] := by
  refine ⟨rfl, ?_⟩
  intro h
  rw [show (create_user [("name", Val.str "Ada"),
        ("email", Val.str "ada@example.com")]).1
      = Val.obj [("message", Val.str "User Ada created!"),
                 ("user", Val.obj [("name", Val.str "Ada"),
                                   ("email", Val.str "ada@example.com"),
                                   ("age", Val.null)])] from rfl] at h
  injection h with h
  injection h with h1 h2
  injection h1 with h1 h1'
  exact absurd h1 (by decide)

/-- C4 (amended): every successful creation returns HTTP 201 whose JSON
body holds a `message` string and, under the key `user`, the serialized
record; at the scenario input `{"name": "Ada", "email":
"ada@example.com"}` the serialized record found under `user` is
`{"name": "Ada", "email": "ada@example.com", "age": null}`. -/
theorem createUser_success_envelope (d : Dict) (u : User)
    (h : validate_and_create d = .ok u) :
    create_user d =
      (Val.obj [("message", Val.str ("User " ++ pyStr u.name ++ " created!")),
                ("user", User.to_dict u)], 201) ∧
    (create_user [("name", Val.str "Ada"), ("email", Val.str "ada@example.com")]).1.get?
        "user"
      = some (Val.obj [("name", Val.str "Ada"), ("email", Val.str "ada@example.com"),
                       ("age", Val.null)]) := by
  exact ⟨by unfold create_user; rw [h], rfl⟩

/-- Witness for the amended C4 at the scenario input. -/
theorem createUser_success_envelope_witness :
    create_user [("name", Val.str "Ada"), ("email", Val.str "ada@example.com")] =
      (Val.obj [("message", Val.str ("User " ++ pyStr (Val.str "Ada") ++ " created!")),
                ("user", User.to_dict ⟨Val.str "Ada", Val.str "ada@example.com",
                                       Val.null⟩)], 201) ∧
    (create_user [("name", Val.str "Ada"), ("email", Val.str "ada@example.com")]).1.get?
        "user"
      = some (Val.obj [("name", Val.str "Ada"), ("email", Val.str "ada@example.com"),
                       ("age", Val.null)]) :=
  createUser_success_envelope
    [("name", Val.str "Ada"), ("email", Val.str "ada@example.com")]
    ⟨Val.str "Ada", Val.str "ada@example.com", Val.null⟩ rfl

/-- C5: `health_status()` takes no inputs and is a fixed literal: both the
Flask and the Django variants return `{"status": "healthy"}` with HTTP
200, the body's only key being `status`. -/
theorem health_status_fixed :
    flask_health_check = (Val.obj [("status", Val.str "healthy")], 200) ∧
    django_health_check = (Val.obj [("status", Val.str "healthy")], 200) ∧
    flask_health_check = django_health_check ∧
    flask_health_check.1.keys = ["status"] :=
  ⟨rfl, rfl, rfl, rfl⟩

/-- C6 counterexample: the handler only checks key presence, so the input
`{"name": "", "email": "e@x"}` succeeds and produces a record whose
`name` is the empty string — refuting "its name is a non-empty
string". -/
theorem createUser_empty_name_accepted :
    ¬ (∀ u, validate_and_create [("name", Val.str ""), ("email", Val.str "e@x")]
          = .ok u → ∃ s, u.name = Val.str s ∧ s ≠ "") := by
  intro h
  obtain ⟨s, hs, hne⟩ := h ⟨Val.str "", Val.str "e@x", Val.null⟩ rfl
  injection hs with hs
  exact hne hs.symm

/-- C6 (amended): every record produced by a successful validation has
its `name` and `email` fields present and equal to the input's values
verbatim — any JSON value, including the empty string. -/
theorem createUser_fields_present (d : Dict) (u : User)
    (h : validate_and_create d = .ok u) :
    d.lookup "name" = some u.name ∧ d.lookup "email" = some u.email := by
  obtain ⟨hn, he, -⟩ := vc_ok_inv d u h
  exact ⟨hn, he⟩

/-- Witness for the amended C6, including an empty-string name. -/
theorem createUser_fields_present_witness :
    [("name", Val.str ""), ("email", Val.str "e@x")].lookup "name"
        = some (Val.str "") ∧
    [("name", Val.str ""), ("email", Val.str "e@x")].lookup "email"
        = some (Val.str "e@x") :=
  createUser_fields_present [("name", Val.str ""), ("email", Val.str "e@x")]
    ⟨Val.str "", Val.str "e@x", Val.null⟩ rfl

/-- Witness for C3 at the spec's scenario input
`{"name": "Ada", "email": "ada@example.com"}`. -/
theorem createUser_age_absent_null_witness :
    (User.to_dict ⟨Val.str "Ada", Val.str "ada@example.com", Val.null⟩).get? "age"
        = some Val.null ∧ Val.null ≠ Val.int 0 :=
  createUser_age_absent_null
    [("name", Val.str "Ada"), ("email", Val.str "ada@example.com")]
    ⟨Val.str "Ada", Val.str "ada@example.com", Val.null⟩ rfl rfl

/-- C7: in the persisted (Django) variant, after a successful save of a
record with email `e`, a second save with the same `e` fails with a
`UniquenessError` and the first record remains retrievable unchanged by
its `id`; the non-persisted (Flask) variant gives no uniqueness
guarantee: any further input sharing the same `email` still succeeds. -/
theorem dsave_duplicate_email (store store₁ : Store) (n₁ n₂ e : String)
    (a₁ a₂ : Option Int) (t₁ t₂ : Nat) (u₁ : DUser)
    (h : dsave store n₁ e a₁ t₁ = .ok (store₁, u₁))
    (d₁ d₂ : Dict) (v : User) (hv : validate_and_create d₁ = .ok v)
    (hn2 : (d₂.lookup "name").isSome)
    (hee : d₂.lookup "email" = d₁.lookup "email") :
    dsave store₁ n₂ e a₂ t₂ = .error "UniquenessError" ∧
    dget store₁ u₁.id = some u₁ ∧
    (∃ w, validate_and_create d₂ = .ok w ∧ w.email = v.email) := by
  unfold dsave at h
  split at h
  · exact Except.noConfusion h
  · injection h with h
    obtain ⟨hs, hu⟩ := Prod.mk.injEq .. ▸ h
    subst hs hu
    refine ⟨?_, ?_, ?_⟩
    · unfold dsave
      rw [if_pos]
      simp [List.any_cons]
    · exact List.find?_cons_of_pos _ (by simp)
    · obtain ⟨-, he₁, -⟩ := vc_ok_inv d₁ v hv
      obtain ⟨n, hn'⟩ := Option.isSome_iff_exists.mp hn2
      rw [he₁] at hee
      exact ⟨⟨n, v.email, dictGet d₂ "age"⟩, vc_ok_of_keys d₂ n v.email hn' hee, rfl⟩

/-- Witness for C7: save "Ada" into the empty store; a second save with
the same email fails with a `UniquenessError` while Ada is still
retrievable, and the Flask variant accepts a second input ("Bob") with
the very same email. -/
theorem dsave_duplicate_email_witness :
    dsave [⟨1, "Ada", "ada@example.com", none, 0, 0⟩] "Bob" "ada@example.com"
        (some 3) 1 = .error "UniquenessError" ∧
    dget [⟨1, "Ada", "ada@example.com", none, 0, 0⟩]
        (⟨1, "Ada", "ada@example.com", none, 0, 0⟩ : DUser).id
      = some ⟨1, "Ada", "ada@example.com", none, 0, 0⟩ ∧
    (∃ w, validate_and_create
        [("name", Val.str "Bob"), ("email", Val.str "ada@example.com")] = .ok w ∧
      w.email = (⟨Val.str "Ada", Val.str "ada@example.com", Val.null⟩ : User).email) :=
  dsave_duplicate_email [] [⟨1, "Ada", "ada@example.com", none, 0, 0⟩]
    "Ada" "Bob" "ada@example.com" none (some 3) 0 1
    ⟨1, "Ada", "ada@example.com", none, 0, 0⟩ rfl
    [("name", Val.str "Ada"), ("email", Val.str "ada@example.com")]
    [("name", Val.str "Bob"), ("email", Val.str "ada@example.com")]
    ⟨Val.str "Ada", Val.str "ada@example.com", Val.null⟩ rfl rfl rfl

/-- C8: in the persisted (Django) variant every listing is the stored
records ordered by `created_at` descending: `dlist` returns a permutation
of the store sorted by `byCreatedDesc`. -/
theorem dlist_sorted_desc (store : Store) :
    List.Sorted byCreatedDesc (dlist store) ∧ List.Perm (dlist store) store :=
  ⟨List.sorted_insertionSort byCreatedDesc store,
   List.perm_insertionSort byCreatedDesc store⟩

/-- C9: `to_dict` is a total, deterministic, pure projection: it reads
each public field back unchanged, its key set is exactly `name`, `email`,
`age`, and records agreeing on those fields serialize identically. -/
theorem toDict_pure_projection (u u₁ u₂ : User)
    (hn : u₁.name = u₂.name) (he : u₁.email = u₂.email) (ha : u₁.age = u₂.age) :
    (User.to_dict u).get? "name" = some u.name ∧
    (User.to_dict u).get? "email" = some u.email ∧
    (User.to_dict u).get? "age" = some u.age ∧
    (User.to_dict u).keys = ["name", "email", "age"] ∧
    User.to_dict u₁ = User.to_dict u₂ := by
  refine ⟨?_, ?_, ?_, rfl, ?_⟩
  · simp [User.to_dict, Val.get?, List.lookup]
  · simp [User.to_dict, Val.get?, List.lookup]
  · simp [User.to_dict, Val.get?, List.lookup]
  · simp [User.to_dict, hn, he, ha]

/-- Witness for C9 at a concrete record. -/
theorem toDict_pure_projection_witness :
    (User.to_dict ⟨Val.str "Ada", Val.str "a@x", Val.int 36⟩).get? "name"
        = some (Val.str "Ada") ∧
    (User.to_dict ⟨Val.str "Ada", Val.str "a@x", Val.int 36⟩).get? "email"
        = some (Val.str "a@x") ∧
    (User.to_dict ⟨Val.str "Ada", Val.str "a@x", Val.int 36⟩).get? "age"
        = some (Val.int 36) ∧
    (User.to_dict ⟨Val.str "Ada", Val.str "a@x", Val.int 36⟩).keys
        = ["name", "email", "age"] ∧
    User.to_dict ⟨Val.str "Ada", Val.str "a@x", Val.int 36⟩
        = User.to_dict ⟨Val.str "Ada", Val.str "a@x", Val.int 36⟩ :=
  toDict_pure_projection ⟨Val.str "Ada", Val.str "a@x", Val.int 36⟩
    ⟨Val.str "Ada", Val.str "a@x", Val.int 36⟩
    ⟨Val.str "Ada", Val.str "a@x", Val.int 36⟩ rfl rfl rfl

/-- C10: the composition of `validate_and_create` and `to_dict` depends
only on the input's `name`, `email` and `age` entries: two succeeding
inputs agreeing on those keys serialize identically, and the output's key
set is exactly `name`, `email`, `age` — extra input keys never appear. -/
theorem createSerialize_depends_only_on_fields (d₁ d₂ : Dict) (u₁ u₂ : User)
    (h₁ : validate_and_create d₁ = .ok u₁) (h₂ : validate_and_create d₂ = .ok u₂)
    (hn : d₁.lookup "name" = d₂.lookup "name")
    (he : d₁.lookup "email" = d₂.lookup "email")
    (ha : d₁.lookup "age" = d₂.lookup "age") :
    User.to_dict u₁ = User.to_dict u₂ ∧
    (User.to_dict u₁).keys = ["name", "email", "age"] := by
  obtain ⟨hn₁, he₁, ha₁⟩ := vc_ok_inv d₁ u₁ h₁
  obtain ⟨hn₂, he₂, ha₂⟩ := vc_ok_inv d₂ u₂ h₂
  have en : u₁.name = u₂.name :=
    Option.some.inj (hn₁.symm.trans (hn.trans hn₂))
  have ee : u₁.email = u₂.email :=
    Option.some.inj (he₁.symm.trans (he.trans he₂))
  have ea : u₁.age = u₂.age := by
    rw [ha₁, ha₂]; unfold dictGet; rw [ha]
  exact ⟨by simp [User.to_dict, en, ee, ea], rfl⟩

/-- Witness for C10: an input carrying an extra `admin` key serializes
exactly like one without it, and `admin` is absent from the output. -/
theorem createSerialize_depends_only_on_fields_witness :
    User.to_dict ⟨Val.str "Ada", Val.str "a@x", Val.null⟩
        = User.to_dict ⟨Val.str "Ada", Val.str "a@x", Val.null⟩ ∧
    (User.to_dict ⟨Val.str "Ada", Val.str "a@x", Val.null⟩).keys
        = ["name", "email", "age"] :=
  createSerialize_depends_only_on_fields
    [("name", Val.str "Ada"), ("email", Val.str "a@x"), ("admin", Val.bool true)]
    [("name", Val.str "Ada"), ("email", Val.str "a@x")]
    ⟨Val.str "Ada", Val.str "a@x", Val.null⟩
    ⟨Val.str "Ada", Val.str "a@x", Val.null⟩ rfl rfl rfl rfl rfl
